import Mathlib

/-!
Shallow embedding of the infracost core under verification:
  * `src/unnamed/part_000` — the Azure `StorageQueue` resource cost model
    (package `azure`): `BuildResource`, `isReplicationTypeSupported`,
    `dataStorageCostComponent`, `operationsCostComponents`,
    `geoReplicationDataTransferCostComponents`.
  * `src/internal/usage/usage_file.go` — the usage-file loader
    (package `usage`): `LoadFromFile`, `parseYAML`, `checkVersion`,
    together with a faithful model of `golang.org/x/mod/semver.Compare`,
    the library function `checkVersion` delegates to.

Strings are Lean `String`s; Go's `strings.ToUpper` is modelled on the ASCII
range (`goToUpper`), which is exact for every string the claims touch.
Pointers (`*string`, `*decimal.Decimal`) become `Option`; `decimal.Decimal`
values appearing here are the integer 1, modelled as `Int`.
-/

/-- `schema.AttributeFilter`: key with either an exact value or a regex. -/
structure AttributeFilter where
  key : String
  value : Option String := none
  valueRegex : Option String := none
deriving Repr, DecidableEq

/-- `schema.ProductFilter`: identifies a product in the price catalog. -/
structure ProductFilter where
  vendorName : Option String
  region : Option String
  service : Option String
  productFamily : Option String
  attributeFilters : List AttributeFilter
deriving Repr, DecidableEq

/-- `schema.PriceFilter`: selects among the prices of one product. -/
structure PriceFilter where
  purchaseOption : Option String
  startUsageAmount : Option String
deriving Repr, DecidableEq

/-- `schema.CostComponent`, restricted to the fields part_000 sets. -/
structure CostComponent where
  name : String
  unit : String
  unitMultiplier : Int
  monthlyQuantity : Option Int
  productFilter : ProductFilter
  priceFilter : PriceFilter
deriving Repr, DecidableEq

/-- `schema.Resource`, restricted to the fields part_000 sets (the usage
schema of `StorageQueue` is the empty list, so it is omitted). -/
structure Resource where
  name : String
  costComponents : List CostComponent
deriving Repr, DecidableEq

/-- The `azure.StorageQueue` struct of part_000. -/
structure StorageQueue where
  address : String
  region : String
  accountReplicationType : String
deriving Repr, DecidableEq

/-- Go `strings.ToUpper`, on the ASCII range (`Char.toUpper` uppercases
exactly the ASCII letters, as Go does on ASCII input). -/
def goToUpper (s : String) : String :=
  String.mk (s.data.map Char.toUpper)

/-- The repo helper `strPtr`: address-of a string constant. -/
def strPtr (s : String) : Option String := some s

/-- Modelled from the spec: the helper `regexPtr` is not under src; the
spec's data model says `valueRegex` is an optional pattern, so the pattern
string is stored as given. No claim inspects its contents. -/
def regexPtr (s : String) : Option String := some s

/-- The repo helper `contains`: membership of a string in a slice. -/
def containsStr (xs : List String) (s : String) : Bool :=
  xs.any (fun x => x == s)

/-- `(*StorageQueue).isReplicationTypeSupported` (part_000 lines 61-63). -/
def isReplicationTypeSupported (r : StorageQueue) : Bool :=
  containsStr ["LRS", "ZRS", "GRS", "RA-GRS", "GZRS", "RA-GZRS"]
    (goToUpper r.accountReplicationType)

/-- `(*StorageQueue).dataStorageCostComponent` (part_000 lines 65-87). -/
def dataStorageCostComponent (r : StorageQueue) : CostComponent :=
  { name := "Capacity"
    unit := "GB"
    unitMultiplier := 1
    monthlyQuantity := none
    productFilter :=
      { vendorName := strPtr "azure"
        region := strPtr r.region
        service := strPtr "Storage"
        productFamily := strPtr "Storage"
        attributeFilters :=
          [ { key := "productName", value := strPtr "Queues v2" }
          , { key := "skuName"
              value := strPtr ("Standard " ++ goToUpper r.accountReplicationType) }
          , { key := "meterName"
              value := strPtr (goToUpper r.accountReplicationType ++ " Data Stored") } ] }
    priceFilter :=
      { purchaseOption := strPtr "Consumption"
        startUsageAmount := strPtr "0" } }

/-- `(*StorageQueue).operationsCostComponents` (part_000 lines 89-139). -/
def operationsCostComponents (r : StorageQueue) : List CostComponent :=
  (if !(containsStr ["GZRS", "RA-GZRS"] (goToUpper r.accountReplicationType)) then
    [ { name := "Class 1 operations"
        unit := "10k operations"
        unitMultiplier := 1
        monthlyQuantity := none
        productFilter :=
          { vendorName := strPtr "azure"
            region := strPtr r.region
            service := strPtr "Storage"
            productFamily := strPtr "Storage"
            attributeFilters :=
              [ { key := "productName", value := strPtr "Queues v2" }
              , { key := "skuName"
                  value := strPtr ("Standard " ++ goToUpper r.accountReplicationType) }
              , { key := "meterName", valueRegex := regexPtr "Class 1 Operations$" } ] }
        priceFilter :=
          { purchaseOption := strPtr "Consumption"
            startUsageAmount := strPtr "0" } } ]
  else []) ++
  [ { name := "Class 2 operations"
      unit := "10k operations"
      unitMultiplier := 1
      monthlyQuantity := none
      productFilter :=
        { vendorName := strPtr "azure"
          region := strPtr r.region
          service := strPtr "Storage"
          productFamily := strPtr "Storage"
          attributeFilters :=
            [ { key := "productName", value := strPtr "Queues v2" }
            , { key := "skuName"
                value := strPtr ("Standard " ++ goToUpper r.accountReplicationType) }
            , { key := "meterName", valueRegex := regexPtr "Class 2 Operations$" } ] }
      priceFilter :=
        { purchaseOption := strPtr "Consumption"
          startUsageAmount := strPtr "0" } } ]

/-- `(*StorageQueue).geoReplicationDataTransferCostComponents`
(part_000 lines 141-169). -/
def geoReplicationDataTransferCostComponents (r : StorageQueue) : List CostComponent :=
  if containsStr ["LRS", "ZRS"] (goToUpper r.accountReplicationType) then []
  else
    [ { name := "Geo-replication data transfer"
        unit := "GB"
        unitMultiplier := 1
        monthlyQuantity := none
        productFilter :=
          { vendorName := strPtr "azure"
            region := strPtr r.region
            service := strPtr "Storage"
            productFamily := strPtr "Storage"
            attributeFilters :=
              [ { key := "productName", value := strPtr "Storage - Bandwidth" }
              , { key := "skuName", value := strPtr "Geo-Replication v2" }
              , { key := "meterName", value := strPtr "Geo-Replication v2 Data Transfer" } ] }
        priceFilter :=
          { purchaseOption := strPtr "Consumption"
            startUsageAmount := strPtr "0" } } ]

/-- The `log.Warnf` text of part_000 line 44, fully formatted. -/
def skipWarning (r : StorageQueue) : String :=
  "Skipping resource " ++ r.address ++ ". Storage queues don't support " ++
    r.accountReplicationType ++ " redundancy"

/-- `(*StorageQueue).BuildResource` (part_000 lines 42-59). The Go method
returns `*schema.Resource` (nil on the unsupported branch) and emits a
warning through the logger; the embedding returns the optional resource
paired with the list of emitted warnings. -/
def BuildResource (r : StorageQueue) : Option Resource × List String :=
  if !(isReplicationTypeSupported r) then
    (none, [skipWarning r])
  else
    (some
      { name := r.address
        costComponents :=
          dataStorageCostComponent r ::
            (operationsCostComponents r ++ geoReplicationDataTransferCostComponents r) },
     [])

/-- The names of the components of a built resource, in order. -/
def componentNames (r : StorageQueue) : Option (List String) :=
  (BuildResource r).1.map (fun res => res.costComponents.map (fun c => c.name))

/-- The value of the attribute filter with key `k` on component `c`
(outer `Option`: whether such a filter exists; inner: its exact value). -/
def filterValue (c : CostComponent) (k : String) : Option (Option String) :=
  (c.productFilter.attributeFilters.find? (fun f => f.key == k)).map (fun f => f.value)

/-!
Model of `golang.org/x/mod/semver`, the library `checkVersion` delegates to:
`Compare`, `parse`, `parseInt`, `parsePrerelease`, `parseBuild`,
`compareInt`, `comparePrerelease`, `nextIdent`, `isIdentChar`, `isBadNum`,
`isNum`, translated over `List Char` (Go indexes bytes; every string the
loader compares here is ASCII, where bytes and chars coincide).
-/

/-- ASCII digit test, as the Go byte comparisons `'0' <= c && c <= '9'`. -/
def isDigitByte (c : Char) : Bool := '0' ≤ c && c ≤ '9'

/-- `semver.isIdentChar`. -/
def isIdentChar (c : Char) : Bool :=
  ('A' ≤ c && c ≤ 'Z') || ('a' ≤ c && c ≤ 'z') || ('0' ≤ c && c ≤ '9') || c == '-'

/-- `semver.isNum`: the string is all digits. -/
def isNum (v : List Char) : Bool := v.all isDigitByte

/-- `semver.isBadNum`: all digits, longer than one, with a leading zero. -/
def isBadNum (v : List Char) : Bool :=
  isNum v && decide (1 < v.length) && (match v with
    | c :: _ => c == '0'
    | [] => false)

/-- Longest digit run at the front, with the rest (the loop of
`semver.parseInt`). -/
def takeDigits : List Char → List Char × List Char
  | [] => ([], [])
  | c :: rest =>
    if isDigitByte c then
      let p := takeDigits rest
      (c :: p.1, p.2)
    else ([], c :: rest)

/-- `semver.parseInt`: a nonempty digit run with no leading zero (unless it
is exactly "0"); returns the run and the rest, or fails. -/
def parseIntSV (v : List Char) : Option (List Char × List Char) :=
  match v with
  | [] => none
  | c :: rest =>
    if isDigitByte c then
      let p := takeDigits rest
      if c == '0' && !p.1.isEmpty then none
      else some (c :: p.1, p.2)
    else none

/-- Split on the dot separators (the `start`-tracking loop of
`semver.parsePrerelease` visits exactly these segments). -/
def splitOnDot : List Char → List (List Char)
  | [] => [[]]
  | c :: rest =>
    let r := splitOnDot rest
    if c == '.' then [] :: r
    else
      match r with
      | [] => [[c]]
      | g :: gs => (c :: g) :: gs

/-- `semver.parsePrerelease`: after the leading `-`, dot-separated
identifiers up to the first `+`, each nonempty, of identifier characters,
and not a numeric identifier with a leading zero. -/
def parsePrerelease (v : List Char) : Option (List Char × List Char) :=
  match v with
  | '-' :: rest =>
    let body := rest.takeWhile (fun c => c ≠ '+')
    let after := rest.dropWhile (fun c => c ≠ '+')
    if (splitOnDot body).all
        (fun p => !p.isEmpty && p.all isIdentChar && !isBadNum p) then
      some ('-' :: body, after)
    else none
  | _ => none

/-- `semver.parseBuild`: after the leading `+`, dot-separated nonempty
segments of identifier characters, consuming the whole rest. -/
def parseBuild (v : List Char) : Option (List Char × List Char) :=
  match v with
  | '+' :: rest =>
    if (splitOnDot rest).all (fun p => !p.isEmpty && p.all isIdentChar) then
      some ('+' :: rest, [])
    else none
  | _ => none

/-- The parsed-version record of `semver` (the `short` field, used only by
`Canonical`, is omitted: `Compare` never reads it). -/
structure SemverParsed where
  major : List Char
  minor : List Char
  patch : List Char
  prerelease : List Char
  build : List Char
deriving Repr, DecidableEq

/-- `semver.parse`: leading `v`, then major[.minor[.patch[-pre][+build]]],
missing minor/patch defaulting to "0". -/
def semverParse (v : List Char) : Option SemverParsed :=
  match v with
  | 'v' :: rest => do
    let pm ← parseIntSV rest
    match pm.2 with
    | [] => some ⟨pm.1, ['0'], ['0'], [], []⟩
    | '.' :: v2 => do
      let pn ← parseIntSV v2
      match pn.2 with
      | [] => some ⟨pm.1, pn.1, ['0'], [], []⟩
      | '.' :: v4 => do
        let pp ← parseIntSV v4
        let pr ←
          match pp.2 with
          | '-' :: rest2 => parsePrerelease ('-' :: rest2)
          | other => some (([] : List Char), other)
        let pb ←
          match pr.2 with
          | '+' :: rest3 => parseBuild ('+' :: rest3)
          | other => some (([] : List Char), other)
        if pb.2.isEmpty then some ⟨pm.1, pn.1, pp.1, pr.1, pb.1⟩ else none
      | _ => none
    | _ => none
  | _ => none

/-- Go string `<` (byte-wise lexicographic; ASCII here). -/
def goStrLt : List Char → List Char → Bool
  | [], [] => false
  | [], _ :: _ => true
  | _ :: _, [] => false
  | a :: as, b :: bs => if a < b then true else if b < a then false else goStrLt as bs

/-- `semver.compareInt`: shorter digit string first, then lexicographic. -/
def compareInt (x y : List Char) : Int :=
  if x = y then 0
  else if x.length < y.length then -1
  else if y.length < x.length then 1
  else if goStrLt x y then -1
  else 1

/-- `semver.nextIdent`: the identifier up to the next dot, and the rest. -/
def nextIdent (x : List Char) : List Char × List Char :=
  (x.takeWhile (fun c => c ≠ '.'), x.dropWhile (fun c => c ≠ '.'))

/-- The comparison `semver.comparePrerelease` performs on two identifiers
already known to differ. -/
def cmpIdentDiff (dx dy : List Char) : Int :=
  if isNum dx ≠ isNum dy then (if isNum dx then -1 else 1)
  else if isNum dx && decide (dx.length < dy.length) then -1
  else if isNum dx && decide (dy.length < dx.length) then 1
  else if goStrLt dx dy then -1
  else 1

/-- The loop of `semver.comparePrerelease`: while both are nonempty, skip
the separator, take the next identifiers, and compare; on exit the side
that ran out first is smaller. `fuel` bounds the iterations; each one drops
at least the separator character, so `x.length` fuel is always enough. -/
def comparePrereleaseLoop : Nat → List Char → List Char → Int
  | Nat.succ fuel, _ :: xt, _ :: yt =>
    let nx := nextIdent xt
    let ny := nextIdent yt
    if nx.1 ≠ ny.1 then cmpIdentDiff nx.1 ny.1
    else comparePrereleaseLoop fuel nx.2 ny.2
  | _, x, _ => if x.isEmpty then -1 else 1

/-- `semver.comparePrerelease`: equal strings tie, the empty prerelease is
greatest, otherwise identifier-by-identifier. -/
def comparePrerelease (x y : List Char) : Int :=
  if x = y then 0
  else if x.isEmpty then 1
  else if y.isEmpty then -1
  else comparePrereleaseLoop x.length x y

/-- `semver.Compare`: invalid sorts below valid, invalids tie; otherwise
major, minor, patch, then prerelease. -/
def semverCompare (v w : List Char) : Int :=
  match semverParse v, semverParse w with
  | none, none => 0
  | none, some _ => -1
  | some _, none => 1
  | some pv, some pw =>
    if compareInt pv.major pw.major ≠ 0 then compareInt pv.major pw.major
    else if compareInt pv.minor pw.minor ≠ 0 then compareInt pv.minor pw.minor
    else if compareInt pv.patch pw.patch ≠ 0 then compareInt pv.patch pw.patch
    else comparePrerelease pv.prerelease pw.prerelease

/-!  The `usage` package (`src/internal/usage/usage_file.go`).  -/

/-- `usage.minUsageFileVersion` (usage_file.go line 15). -/
def minUsageFileVersion : String := "0.1"

/-- `usage.maxUsageFileVersion` (usage_file.go line 16). -/
def maxUsageFileVersion : String := "0.1"

/-- Go `strings.HasPrefix(v, "v")`: the first byte is `v`. -/
def hasVeeMarker (s : String) : Bool :=
  match s.data with
  | 'v' :: _ => true
  | _ => false

/-- `usage.checkVersion` (usage_file.go lines 62-67): ensure a leading
`v`, then test membership of the inclusive semver range. -/
def checkVersion (v : String) : Bool :=
  let v2 := if hasVeeMarker v then v else "v" ++ v
  decide (0 ≤ semverCompare v2.data ("v" ++ minUsageFileVersion).data) &&
  decide (semverCompare v2.data ("v" ++ maxUsageFileVersion).data ≤ 0)

/-- An untyped YAML value, the shape `resource_usage` entries may take. -/
inductive YamlValue where
  | null : YamlValue
  | str : String → YamlValue
  | num : Int → YamlValue
  | seq : List YamlValue → YamlValue
  | map : List (String × YamlValue) → YamlValue
deriving Repr

/-- The `usage.UsageFile` struct: `version` and `resource_usage`. -/
structure UsageFileT where
  version : String
  resourceUsage : List (String × YamlValue)
deriving Repr

/-- `schema.UsageData`, as far as the loader produces it: a resource
address with its untyped attribute map. -/
structure UsageData where
  address : String
  attributes : YamlValue
deriving Repr

/-- Modelled from the spec: `schema.NewUsageMap` is not under src; the spec
says `resourceUsage` is "reinterpreted as mapping from resource address to
untyped attribute map", so each entry becomes a `UsageData` keyed by its
address. -/
def NewUsageMap (m : List (String × YamlValue)) : List (String × UsageData) :=
  m.map (fun p => (p.1, ⟨p.1, p.2⟩))

/-- The version error of `parseYAML` (usage_file.go line 54), fully
formatted from the min and max constants. -/
def versionErrMsg : String :=
  "Invalid usage file version. Supported versions are " ++ minUsageFileVersion ++
    " ≤ x ≤ " ++ maxUsageFileVersion

/-- `usage.parseYAML` (usage_file.go lines 45-60). `yaml.Unmarshal` is
external, so the raw bytes are represented by the outcome the unmarshaller
gives for them: either a parse error or a `UsageFileT`. The Go function
returns a map and an error; the embedding returns the pair, the error as
`Option String`. -/
def parseYAML (unmarshal : Except String UsageFileT) : List (String × UsageData) × Option String :=
  match unmarshal with
  | Except.error e => ([], some ("Error parsing usage YAML: " ++ e))
  | Except.ok usageFile =>
    if !(checkVersion usageFile.version) then
      ([], some versionErrMsg)
    else
      (NewUsageMap usageFile.resourceUsage, none)

/-- `usage.LoadFromFile` (usage_file.go lines 23-43). `ioutil.ReadFile` is
external: `readFile` maps a path to a read error or to the unmarshal
outcome of the bytes read (the composition of file read and
`yaml.Unmarshal`, the only way the bytes are consumed). -/
def LoadFromFile (readFile : String → Except String (Except String UsageFileT))
    (usageFile : String) : List (String × UsageData) × Option String :=
  if usageFile = "" then ([], none)
  else
    match readFile usageFile with
    | Except.error e => ([], some ("Error reading usage file: " ++ e))
    | Except.ok out =>
      match parseYAML out with
      | (m, some e) => (m, some ("Error parsing usage file: " ++ e))
      | (m, none) => (m, none)

/-!  Helper lemmas (shared across claims).  -/

/-- `containsStr` is list membership. -/
theorem containsStr_iff_mem (xs : List String) (s : String) :
    containsStr xs s = true ↔ s ∈ xs := by
  simp [containsStr]

/-- `parseYAML` pairs every error with the empty map. -/
theorem parseYAML_error_empty (u : Except String UsageFileT)
    (m : List (String × UsageData)) (e : String)
    (h : parseYAML u = (m, some e)) : m = [] := by
  cases u with
  | error er => exact (congrArg Prod.fst h).symm
  | ok uf =>
    simp only [parseYAML] at h
    split at h
    · exact (congrArg Prod.fst h).symm
    · exact Option.noConfusion
        (show (none : Option String) = some e from congrArg Prod.snd h)

/-- A read oracle that fails on every path. -/
def failingRead : String → Except String (Except String UsageFileT) :=
  fun _ => Except.error "boom"

/-!  Claim theorems.  -/

/-- C6: the usage-file version check accepts both "0.1" and "v0.1" and
rejects "0.2", "0.0" and ""; on rejection `parseYAML` fails with an error
naming 0.1 as both the lower and the upper bound of the supported range. -/
theorem checkVersion_gate :
    checkVersion "0.1" = true ∧ checkVersion "v0.1" = true ∧
    checkVersion "0.2" = false ∧ checkVersion "0.0" = false ∧
    checkVersion "" = false ∧
    (∀ uf : UsageFileT, checkVersion uf.version = false →
      parseYAML (Except.ok uf) =
        ([], some "Invalid usage file version. Supported versions are 0.1 ≤ x ≤ 0.1")) := by
  refine ⟨by decide, by decide, by decide, by decide, by decide, ?_⟩
  intro uf h
  simp only [parseYAML, h]
  rfl

/-- Witness for C6: the rejected version "0.2" makes `parseYAML` fail with
the range-naming error and an empty map. -/
theorem checkVersion_gate_witness :
    parseYAML (Except.ok ⟨"0.2", []⟩) =
      ([], some "Invalid usage file version. Supported versions are 0.1 ≤ x ≤ 0.1") :=
  checkVersion_gate.2.2.2.2.2 ⟨"0.2", []⟩ (by decide)

/-- C7: whenever `LoadFromFile` returns an error, it returns the empty
usage map with it — never a partially populated one. -/
theorem loadFromFile_error_empty
    (readFile : String → Except String (Except String UsageFileT))
    (path : String) (m : List (String × UsageData)) (e : String)
    (h : LoadFromFile readFile path = (m, some e)) : m = [] := by
  rw [LoadFromFile] at h
  split at h
  · exact Option.noConfusion
      (show (none : Option String) = some e from congrArg Prod.snd h)
  · split at h
    · exact (congrArg Prod.fst h).symm
    · split at h
      case _ m2 e2 heq =>
        exact (congrArg Prod.fst h).symm.trans (parseYAML_error_empty _ _ _ heq)
      case _ m2 heq =>
        exact Option.noConfusion
          (show (none : Option String) = some e from congrArg Prod.snd h)

/-- Witness for C7: an unreadable file yields an error and the empty map. -/
theorem loadFromFile_error_empty_witness :
    (LoadFromFile failingRead "infracost-usage.yml").1 = [] :=
  loadFromFile_error_empty failingRead "infracost-usage.yml"
    (LoadFromFile failingRead "infracost-usage.yml").1
    "Error reading usage file: boom" rfl

/-- C8: the empty path yields the empty usage map and no error, for every
read oracle — the result never consults the file system. -/
theorem loadFromFile_empty_path
    (readFile : String → Except String (Except String UsageFileT)) :
    LoadFromFile readFile "" = ([], none) := by
  rw [LoadFromFile]
  simp

/-- C10: the version gate is a semver-order comparison after prefix
normalization, not string equality: every version string whose normalized
form compares semver-equal to v0.1 is accepted — in particular the
spellings "0.1.0" and "v0.1.0", though neither is the string "0.1" nor
"v0.1". -/
theorem checkVersion_semver_equivalent :
    (∀ v : String,
      semverCompare (if hasVeeMarker v then v else "v" ++ v).data
          ("v0.1" : String).data = 0 →
      checkVersion v = true) ∧
    checkVersion "0.1.0" = true ∧ checkVersion "v0.1.0" = true ∧
    ("0.1.0" : String) ≠ "0.1" ∧ ("0.1.0" : String) ≠ "v0.1" := by
  refine ⟨?_, by decide, by decide, by decide, by decide⟩
  intro v h
  have hmin : ("v" ++ minUsageFileVersion : String) = "v0.1" := rfl
  have hmax : ("v" ++ maxUsageFileVersion : String) = "v0.1" := rfl
  simp only [checkVersion, hmin, hmax, h]
  rfl

/-- Witness for C10: "0.1.0" normalizes to v0.1.0, which compares
semver-equal to v0.1, so the gate accepts it. -/
theorem checkVersion_semver_equivalent_witness :
    checkVersion "0.1.0" = true :=
  checkVersion_semver_equivalent.1 "0.1.0" (by decide)

/-- `containsStr` is false exactly off the list. -/
theorem containsStr_eq_false (xs : List String) (s : String) (h : s ∉ xs) :
    containsStr xs s = false := by
  rw [← Bool.not_eq_true, containsStr_iff_mem]
  exact h

/-- The supported replication types, as listed in
`isReplicationTypeSupported`. -/
def supportedReplicationTypes : List String :=
  ["LRS", "ZRS", "GRS", "RA-GRS", "GZRS", "RA-GZRS"]

/-- C1: a replication type whose upper-cased form is in the supported set
builds a resource with a non-empty component list and no warning; any
other value builds no resource and emits exactly one warning. -/
theorem buildResource_supported_gate (r : StorageQueue) :
    (goToUpper r.accountReplicationType ∈ supportedReplicationTypes →
      ∃ res, BuildResource r = (some res, []) ∧ res.costComponents ≠ []) ∧
    (goToUpper r.accountReplicationType ∉ supportedReplicationTypes →
      (BuildResource r).1 = none ∧ (BuildResource r).2.length = 1) := by
  constructor
  · intro h
    have hs : isReplicationTypeSupported r = true :=
      (containsStr_iff_mem _ _).mpr h
    refine ⟨{ name := r.address
              costComponents :=
                dataStorageCostComponent r ::
                  (operationsCostComponents r ++
                    geoReplicationDataTransferCostComponents r) }, ?_, ?_⟩
    · rw [BuildResource, hs]
      rfl
    · exact List.cons_ne_nil _ _
  · intro h
    have hs : isReplicationTypeSupported r = false :=
      containsStr_eq_false _ _ h
    rw [BuildResource, hs]
    exact ⟨rfl, rfl⟩

/-- Witness for C1: "LRS" is supported and builds a resource with
components; "XYZ" is not and is skipped with one warning. -/
theorem buildResource_supported_gate_witness :
    (∃ res, BuildResource ⟨"queue", "westus", "LRS"⟩ = (some res, []) ∧
      res.costComponents ≠ []) ∧
    (BuildResource ⟨"queue", "westus", "XYZ"⟩).1 = none ∧
    (BuildResource ⟨"queue", "westus", "XYZ"⟩).2.length = 1 :=
  ⟨(buildResource_supported_gate ⟨"queue", "westus", "LRS"⟩).1 (by decide),
   (buildResource_supported_gate ⟨"queue", "westus", "XYZ"⟩).2 (by decide)⟩

/-- C2: components come in the fixed order base, operation classes
ascending (excluded classes omitted), transfer; "LRS" gives exactly
[Capacity, Class 1 operations, Class 2 operations], "RA-GZRS" gives
exactly [Capacity, Class 2 operations, Geo-replication data transfer],
and "XYZ" gives no resource and one warning. -/
theorem buildResource_component_order (a reg : String) :
    componentNames ⟨a, reg, "LRS"⟩ =
      some ["Capacity", "Class 1 operations", "Class 2 operations"] ∧
    componentNames ⟨a, reg, "RA-GZRS"⟩ =
      some ["Capacity", "Class 2 operations", "Geo-replication data transfer"] ∧
    (BuildResource ⟨a, reg, "XYZ"⟩).1 = none ∧
    (BuildResource ⟨a, reg, "XYZ"⟩).2.length = 1 ∧
    (∀ r : StorageQueue, ∀ res, (BuildResource r).1 = some res →
      res.costComponents.map (fun c => c.name) =
        ["Capacity"] ++
        (if goToUpper r.accountReplicationType ∈ ["GZRS", "RA-GZRS"] then []
          else ["Class 1 operations"]) ++
        ["Class 2 operations"] ++
        (if goToUpper r.accountReplicationType ∈ ["LRS", "ZRS"] then []
          else ["Geo-replication data transfer"])) := by
  refine ⟨rfl, rfl, rfl, rfl, ?_⟩
  intro r res h
  rw [BuildResource] at h
  split at h
  · exact Option.noConfusion h
  · cases h
    by_cases h1 : goToUpper r.accountReplicationType ∈ (["GZRS", "RA-GZRS"] : List String) <;>
    by_cases h2 : goToUpper r.accountReplicationType ∈ (["LRS", "ZRS"] : List String)
    · have hc1 := (containsStr_iff_mem _ _).mpr h1
      have hc2 := (containsStr_iff_mem _ _).mpr h2
      simp [operationsCostComponents, geoReplicationDataTransferCostComponents,
        dataStorageCostComponent, hc1, hc2, h1, h2]
    · have hc1 := (containsStr_iff_mem _ _).mpr h1
      have hc2 := containsStr_eq_false _ _ h2
      simp [operationsCostComponents, geoReplicationDataTransferCostComponents,
        dataStorageCostComponent, hc1, hc2, h1, h2]
    · have hc1 := containsStr_eq_false _ _ h1
      have hc2 := (containsStr_iff_mem _ _).mpr h2
      simp [operationsCostComponents, geoReplicationDataTransferCostComponents,
        dataStorageCostComponent, hc1, hc2, h1, h2]
    · have hc1 := containsStr_eq_false _ _ h1
      have hc2 := containsStr_eq_false _ _ h2
      simp [operationsCostComponents, geoReplicationDataTransferCostComponents,
        dataStorageCostComponent, hc1, hc2, h1, h2]

/-- Witness for C2: a built "GRS" resource has all four component slots
filled in the stated order. -/
theorem buildResource_component_order_witness :
    ({ name := "queue"
       costComponents :=
         dataStorageCostComponent ⟨"queue", "westus", "GRS"⟩ ::
           (operationsCostComponents ⟨"queue", "westus", "GRS"⟩ ++
             geoReplicationDataTransferCostComponents ⟨"queue", "westus", "GRS"⟩) } :
        Resource).costComponents.map (fun c => c.name) =
      ["Capacity"] ++ ["Class 1 operations"] ++ ["Class 2 operations"] ++
        ["Geo-replication data transfer"] := by
  have h := (buildResource_component_order "queue" "westus").2.2.2.2
    ⟨"queue", "westus", "GRS"⟩
    { name := "queue"
      costComponents :=
        dataStorageCostComponent ⟨"queue", "westus", "GRS"⟩ ::
          (operationsCostComponents ⟨"queue", "westus", "GRS"⟩ ++
            geoReplicationDataTransferCostComponents ⟨"queue", "westus", "GRS"⟩) }
    rfl
  rw [h]
  rfl

/-- C3: for supported configurations, the "Class 1 operations" component
is present exactly when the upper-cased configuration is outside
{GZRS, RA-GZRS}; the "Class 2 operations" component is always present. -/
theorem operationsComponents_presence (r : StorageQueue)
    (h : isReplicationTypeSupported r = true) :
    ((∃ c ∈ operationsCostComponents r, c.name = "Class 1 operations") ↔
      goToUpper r.accountReplicationType ∉ (["GZRS", "RA-GZRS"] : List String)) ∧
    (∃ c ∈ operationsCostComponents r, c.name = "Class 2 operations") := by
  by_cases h1 : goToUpper r.accountReplicationType ∈ (["GZRS", "RA-GZRS"] : List String)
  · have hc1 := (containsStr_iff_mem _ _).mpr h1
    constructor
    · simp [operationsCostComponents, hc1, h1]
    · simp [operationsCostComponents, hc1]
  · have hc1 := containsStr_eq_false _ _ h1
    constructor
    · simp [operationsCostComponents, hc1, h1]
    · simp [operationsCostComponents, hc1]

/-- Witness for C3: "GZRS" drops Class 1 and keeps Class 2. -/
theorem operationsComponents_presence_witness :
    ((∃ c ∈ operationsCostComponents ⟨"q", "eastus", "GZRS"⟩,
        c.name = "Class 1 operations") ↔
      goToUpper ("GZRS" : String) ∉ (["GZRS", "RA-GZRS"] : List String)) ∧
    (∃ c ∈ operationsCostComponents ⟨"q", "eastus", "GZRS"⟩,
      c.name = "Class 2 operations") :=
  operationsComponents_presence ⟨"q", "eastus", "GZRS"⟩ (by decide)

/-- C4: configurations upper-casing to LRS or ZRS produce zero
geo-replication transfer components; the other supported configurations
produce exactly one, named "Geo-replication data transfer". -/
theorem geoReplication_presence (r : StorageQueue) :
    (goToUpper r.accountReplicationType ∈ (["LRS", "ZRS"] : List String) →
      geoReplicationDataTransferCostComponents r = []) ∧
    (goToUpper r.accountReplicationType ∈
        (["GRS", "RA-GRS", "GZRS", "RA-GZRS"] : List String) →
      (geoReplicationDataTransferCostComponents r).map (fun c => c.name) =
        ["Geo-replication data transfer"]) := by
  constructor
  · intro h
    have hc := (containsStr_iff_mem _ _).mpr h
    rw [geoReplicationDataTransferCostComponents, hc]
    rfl
  · intro h
    have hne : goToUpper r.accountReplicationType ∉ (["LRS", "ZRS"] : List String) := by
      intro hm
      simp only [List.mem_cons, List.mem_singleton, List.not_mem_nil, or_false] at h hm
      rcases hm with hm | hm <;> rcases h with h | h | h | h <;>
        exact absurd (hm.symm.trans h) (by decide)
    have hc := containsStr_eq_false _ _ hne
    rw [geoReplicationDataTransferCostComponents, hc]
    rfl

/-- Witness for C4: "ZRS" has no transfer component, "GRS" has exactly
the one transfer component. -/
theorem geoReplication_presence_witness :
    geoReplicationDataTransferCostComponents ⟨"q", "eastus", "ZRS"⟩ = [] ∧
    (geoReplicationDataTransferCostComponents ⟨"q", "eastus", "GRS"⟩).map
        (fun c => c.name) =
      ["Geo-replication data transfer"] :=
  ⟨(geoReplication_presence ⟨"q", "eastus", "ZRS"⟩).1 (by decide),
   (geoReplication_presence ⟨"q", "eastus", "GRS"⟩).2 (by decide)⟩

/-- C5: every filter value embedding the configuration token upper-cases
it: the Capacity skuName is "Standard " + upper, the Capacity meterName is
upper + " Data Stored", and each operations component's skuName is
"Standard " + upper, regardless of caller casing. -/
theorem filter_token_upper_cased (r : StorageQueue)
    (h : isReplicationTypeSupported r = true) :
    filterValue (dataStorageCostComponent r) "skuName" =
      some (some ("Standard " ++ goToUpper r.accountReplicationType)) ∧
    filterValue (dataStorageCostComponent r) "meterName" =
      some (some (goToUpper r.accountReplicationType ++ " Data Stored")) ∧
    ∀ c ∈ operationsCostComponents r,
      filterValue c "skuName" =
        some (some ("Standard " ++ goToUpper r.accountReplicationType)) := by
  refine ⟨?_, ?_, ?_⟩
  · simp [filterValue, dataStorageCostComponent, strPtr]
  · simp [filterValue, dataStorageCostComponent, strPtr]
  · intro c hc
    rw [operationsCostComponents] at hc
    rcases List.mem_append.mp hc with h1 | h2
    · split at h1
      · simp only [List.mem_singleton] at h1
        subst h1
        simp [filterValue, strPtr]
      · simp at h1
    · simp only [List.mem_singleton] at h2
      subst h2
      simp [filterValue, strPtr]

/-- Witness for C5: the lower-case caller spelling "lrs" still produces
the upper-cased skuName "Standard LRS". -/
theorem filter_token_upper_cased_witness :
    filterValue (dataStorageCostComponent ⟨"q", "westus", "lrs"⟩) "skuName" =
      some (some "Standard LRS") :=
  (filter_token_upper_cased ⟨"q", "westus", "lrs"⟩ (by decide)).1

/-- The fixed-field invariant of C9: azure vendor, the resource's region,
Consumption purchase option starting at "0", unit multiplier 1, and no
monthly quantity. -/
def fixedFieldInvariant (region : String) (c : CostComponent) : Prop :=
  c.productFilter.vendorName = some "azure" ∧
  c.productFilter.region = some region ∧
  c.priceFilter.purchaseOption = some "Consumption" ∧
  c.priceFilter.startUsageAmount = some "0" ∧
  c.unitMultiplier = 1 ∧
  c.monthlyQuantity = none

/-- C9: every cost component of every resource `BuildResource` emits
satisfies the fixed-field invariant. -/
theorem buildResource_fixed_fields (r : StorageQueue) (res : Resource)
    (h : (BuildResource r).1 = some res) :
    ∀ c ∈ res.costComponents, fixedFieldInvariant r.region c := by
  rw [BuildResource] at h
  split at h
  · exact Option.noConfusion h
  · cases h
    intro c hc
    rcases List.mem_cons.mp hc with rfl | hc2
    · simp [fixedFieldInvariant, dataStorageCostComponent, strPtr]
    rcases List.mem_append.mp hc2 with h1 | h2
    · rw [operationsCostComponents] at h1
      rcases List.mem_append.mp h1 with h3 | h4
      · split at h3
        · simp only [List.mem_singleton] at h3
          subst h3
          simp [fixedFieldInvariant, strPtr]
        · simp at h3
      · simp only [List.mem_singleton] at h4
        subst h4
        simp [fixedFieldInvariant, strPtr]
    · rw [geoReplicationDataTransferCostComponents] at h2
      split at h2
      · simp at h2
      · simp only [List.mem_singleton] at h2
        subst h2
        simp [fixedFieldInvariant, strPtr]

/-- Witness for C9: the Capacity component of a built "GRS" resource
satisfies the fixed-field invariant. -/
theorem buildResource_fixed_fields_witness :
    fixedFieldInvariant "westus" (dataStorageCostComponent ⟨"q", "westus", "GRS"⟩) :=
  buildResource_fixed_fields ⟨"q", "westus", "GRS"⟩
    { name := "q"
      costComponents :=
        dataStorageCostComponent ⟨"q", "westus", "GRS"⟩ ::
          (operationsCostComponents ⟨"q", "westus", "GRS"⟩ ++
            geoReplicationDataTransferCostComponents ⟨"q", "westus", "GRS"⟩) }
    rfl
    (dataStorageCostComponent ⟨"q", "westus", "GRS"⟩)
    (List.mem_cons_self _ _)
